import Mathlib

/-!
# VMCluster operator: the cluster resource's accessors and the reconcile pass

A shallow embedding of

* `pkg/apis/victoriametrics/v1beta1/vmcluster_types.go` (the cluster resource,
  its tier sub-specifications and their accessors), and
* `pkg/controller/vmcluster/vmcluster_controller.go` (`ReconcileVmCluster.Reconcile`).

Go values are embedded as follows: a `string` is a `String`, a pointer `*T` is an
`Option T` (`none` is the nil pointer), a `map[string]string` is a `GoMap`
(`none` is the nil map), an `error` is an `Option GoError` (`none` is nil),
`int`, `int32` and `int64` are `Int`, and `time.Duration` is an `Int` counting
nanoseconds.  The resource store behind `client.Client` is an explicit state that
is passed through the reconcile pass, and every call the pass makes on a
collaborator is recorded, in order, in the pass's list of calls.

`factory.CreateOrUpdateVMCluster`, which `Reconcile` calls, is not among the
sources.  `Reconcile` takes it as a parameter; where a property is about what the
whole pass does to the store, the call is the one modelled from the specification
(`CreateOrUpdateVMCluster` below).
-/

namespace Operator

/-! ## Library types the sources build on (stand-ins) -/

/-- A Go `map[string]string`: `none` is the nil map, `some es` a map with entries `es`. -/
abbrev GoMap := Option (List (String × String))

/-- The reason `apierrors.ReasonForError` reports for an error (`metav1.StatusReason`). -/
inductive StatusReason where
  | Unknown
  | NotFound
  | AlreadyExists
  | Conflict
  | Invalid
  | Timeout
  | ServiceUnavailable
  | InternalError
  deriving DecidableEq, Repr

/-- A non-nil Go `error`: the reason the API machinery reports for it and its text. -/
structure GoError where
  reason : StatusReason := StatusReason.Unknown
  message : String := ""
  deriving DecidableEq, Repr

/-- Go `errors.IsNotFound(err)` for a non-nil `err`. -/
def IsNotFound (err : GoError) : Bool :=
  decide (err.reason = StatusReason.NotFound)

/-- Go `time.Duration`, in nanoseconds. -/
abbrev Duration := Int

/-- Go `time.Second`. -/
def Second : Duration := 1000000000

/-- Stand-in for `v1.LocalObjectReference`. -/
structure LocalObjectReference where
  Name : String := ""
  deriving DecidableEq, Repr

/-- Stand-in for `v1.Volume`. -/
structure Volume where
  Name : String := ""
  deriving DecidableEq, Repr

/-- Stand-in for `v1.VolumeMount`. -/
structure VolumeMount where
  Name : String := ""
  MountPath : String := ""
  deriving DecidableEq, Repr

/-- Stand-in for `v1.EnvVar`. -/
structure EnvVar where
  Name : String := ""
  Value : String := ""
  deriving DecidableEq, Repr

/-- Stand-in for `v1.Container`. -/
structure Container where
  Name : String := ""
  Image : String := ""
  deriving DecidableEq, Repr

/-- Stand-in for `v1.Toleration`. -/
structure Toleration where
  Key : String := ""
  Operator : String := ""
  Value : String := ""
  Effect : String := ""
  deriving DecidableEq, Repr

/-- Stand-in for `v1.ResourceRequirements`. -/
structure ResourceRequirements where
  Limits : GoMap := none
  Requests : GoMap := none
  deriving DecidableEq, Repr

/-- Stand-in for `v1.Affinity`. -/
structure Affinity where
  rules : List String := []
  deriving DecidableEq, Repr

/-- Stand-in for `v1.PodSecurityContext`. -/
structure PodSecurityContext where
  RunAsUser : Option Int := none
  FSGroup : Option Int := none
  deriving DecidableEq, Repr

/-- The `metav1.TypeMeta` embedded in a resource. -/
structure TypeMeta where
  Kind : String := ""
  APIVersion : String := ""
  deriving DecidableEq, Repr

/-- The fields of `metav1.ObjectMeta` the sources read. -/
structure ObjectMeta where
  Name : String := ""
  Namespace : String := ""
  UID : String := ""
  ResourceVersion : String := ""
  Generation : Int := 0
  Labels : GoMap := none
  Annotations : GoMap := none
  deriving DecidableEq, Repr

/-- The `types.NamespacedName` of a resource: the identity a request carries. -/
structure NamespacedName where
  Namespace : String := ""
  Name : String := ""
  deriving DecidableEq, Repr

/-! ## `vmcluster_types.go` -/

def ClusterStatusExpanding : String := "expanding"
def ClusterStatusOperational : String := "operational"
def ClusterStatusFailed : String := "failed"

def StorageRollingUpdateFailed : String := "failed to perform rolling update on vmStorage"
def StorageCreationFailed : String := "failed to create vmStorage statefulset"
def SelectRollingUpdateFailed : String := "failed to perform rolling update on vmSelect"
def SelectCreationFailed : String := "failed to create vmSelect statefulset"
def InsertCreationFailed : String := "failed to create vmInsert deployment"

/-- Modelled from the spec: the type `EmbeddedObjectMetadata` of the `PodMetadata`
fields is declared in a file of the package that is not among the sources; the
sources read its `Labels` and `Annotations` ("PodMetadata configures Labels and
Annotations which are propagated to the ... pods"). -/
structure EmbeddedObjectMetadata where
  Name : String := ""
  Labels : GoMap := none
  Annotations : GoMap := none
  deriving DecidableEq, Repr

/-- Modelled from the spec: the type `StorageSpec` of the `Storage` fields is
declared in a file of the package that is not among the sources; the spec names a
persistent-volume request whose size and claim fields are validated. -/
structure StorageSpec where
  Size : String := ""
  ExistingClaim : String := ""
  deriving DecidableEq, Repr

/-- Docker image settings (`Image`). -/
structure Image where
  Repository : String := ""
  Tag : String := ""
  PullPolicy : String := ""
  deriving DecidableEq, Repr

/-- The Select tier sub-specification (`VMSelect`). -/
structure VMSelect where
  Name : String := ""
  PodMetadata : Option EmbeddedObjectMetadata := none
  Image : Image := {}
  Secrets : List String := []
  ConfigMaps : List String := []
  LogFormat : String := ""
  LogLevel : String := ""
  ReplicaCount : Option Int := none
  Volumes : List Volume := []
  VolumeMounts : List VolumeMount := []
  Resources : ResourceRequirements := {}
  Affinity : Option Affinity := none
  Tolerations : List Toleration := []
  SecurityContext : Option PodSecurityContext := none
  ServiceAccountName : String := ""
  Containers : List Container := []
  InitContainers : List Container := []
  PriorityClassName : String := ""
  HostNetwork : Bool := false
  DNSPolicy : String := ""
  CacheMountPath : String := ""
  Storage : Option StorageSpec := none
  ExtraEnvs : List EnvVar := []
  ExtraArgs : GoMap := none
  Port : String := ""
  SchedulerName : String := ""
  deriving DecidableEq, Repr

/-- The Insert tier sub-specification (`VmInsert`). -/
structure VmInsert where
  Name : String := ""
  PodMetadata : Option EmbeddedObjectMetadata := none
  Image : Image := {}
  Secrets : List String := []
  ConfigMaps : List String := []
  LogFormat : String := ""
  LogLevel : String := ""
  ReplicaCount : Option Int := none
  Volumes : List Volume := []
  VolumeMounts : List VolumeMount := []
  Resources : ResourceRequirements := {}
  Affinity : Option Affinity := none
  Tolerations : List Toleration := []
  SecurityContext : Option PodSecurityContext := none
  ServiceAccountName : String := ""
  Containers : List Container := []
  InitContainers : List Container := []
  PriorityClassName : String := ""
  HostNetwork : Bool := false
  DNSPolicy : String := ""
  ExtraArgs : GoMap := none
  Port : String := ""
  SchedulerName : String := ""
  ExtraEnvs : List EnvVar := []
  deriving DecidableEq, Repr

/-- The Storage tier sub-specification (`VMStorage`). -/
structure VMStorage where
  Name : String := ""
  PodMetadata : Option EmbeddedObjectMetadata := none
  Image : Image := {}
  Secrets : List String := []
  ConfigMaps : List String := []
  LogFormat : String := ""
  LogLevel : String := ""
  ReplicaCount : Option Int := none
  Volumes : List Volume := []
  VolumeMounts : List VolumeMount := []
  Resources : ResourceRequirements := {}
  Affinity : Option Affinity := none
  Tolerations : List Toleration := []
  SecurityContext : Option PodSecurityContext := none
  ServiceAccountName : String := ""
  Containers : List Container := []
  InitContainers : List Container := []
  PriorityClassName : String := ""
  HostNetwork : Bool := false
  DNSPolicy : String := ""
  StorageDataPath : String := ""
  Storage : Option StorageSpec := none
  TerminationGracePeriodSeconds : Int := 0
  SchedulerName : String := ""
  Port : String := ""
  VMInsertPort : String := ""
  VMSelectPort : String := ""
  ExtraArgs : GoMap := none
  ExtraEnvs : List EnvVar := []
  deriving DecidableEq, Repr

/-- The desired state of a cluster (`VmClusterSpec`). -/
structure VmClusterSpec where
  RetentionPeriod : String := ""
  ReplicationFactor : Option Int := none
  ImagePullSecrets : List LocalObjectReference := []
  VMSelect : Option VMSelect := none
  VMInsert : Option VmInsert := none
  VMStorage : Option VMStorage := none
  deriving DecidableEq, Repr

/-- The observed state of the Storage tier (`VMStorageStatus`). -/
structure VMStorageStatus where
  Status : String := ""
  deriving DecidableEq, Repr

/-- The observed state of a cluster (`VMClusterStatus`). -/
structure VMClusterStatus where
  UpdateFailCount : Int := 0
  LastSync : String := ""
  ClusterStatus : String := ""
  Reason : String := ""
  VMStorage : VMStorageStatus := {}
  deriving DecidableEq, Repr

/-- The cluster resource (`VMCluster`). -/
structure VMCluster where
  toTypeMeta : TypeMeta := {}
  toObjectMeta : ObjectMeta := {}
  Spec : VmClusterSpec := {}
  Status : VMClusterStatus := {}
  deriving DecidableEq, Repr

/-- Go `PrefixedName(name, prefix)`: `fmt.Sprintf("%s-%s", prefix, name)`. -/
def PrefixedName (name pfx : String) : String :=
  pfx ++ "-" ++ name

/-- Go `VMSelect.GetName`. -/
def VMSelect.GetName (s : VMSelect) (clusterName : String) : String :=
  if s.Name = "" then
    PrefixedName clusterName "vmselect"
  else
    PrefixedName s.Name "vmselect"

/-- Go `VmInsert.GetName`. -/
def VmInsert.GetName (i : VmInsert) (clusterName : String) : String :=
  if i.Name = "" then
    PrefixedName clusterName "vminsert"
  else
    PrefixedName i.Name "vminsert"

/-- Go `VMStorage.GetName`. -/
def VMStorage.GetName (s : VMStorage) (clusterName : String) : String :=
  if s.Name = "" then
    PrefixedName clusterName "vmstorage"
  else
    PrefixedName s.Name "vmstorage"

/-- How a Go call ends: it returns a value, or it panics. -/
inductive GoRun (α : Type) where
  | returns (value : α)
  | panics (msg : String)
  deriving DecidableEq, Repr

/-- Go `fmt.Errorf("invalid persitance volime spec for %s:%w", name, err)`.  The
wrapping error is no API status error, so its reason is `Unknown`. -/
def invalidVolumeSpecErrorf (name : String) (err : GoError) : GoError :=
  { reason := StatusReason.Unknown
    message := "invalid persitance volime spec for " ++ name ++ ":" ++ err.message }

/-- Go `VMStorage.Validate`.  The method `StorageSpec.Validate` it calls on the
`Storage` pointer is declared outside the sources and is the parameter
`storageSpecValidate`. -/
def VMStorage.Validate (storageSpecValidate : Option StorageSpec → GoRun (Option GoError))
    (s : VMStorage) : GoRun (Option GoError) :=
  match storageSpecValidate s.Storage with
  | GoRun.panics msg => GoRun.panics msg
  | GoRun.returns (some err) => GoRun.returns (some (invalidVolumeSpecErrorf s.Name err))
  | GoRun.returns none => GoRun.returns none

/-- Go `VMCluster.Validate`.  `VMStorage.Validate` has a value receiver, so calling
it through the pointer `c.Spec.VMStorage` dereferences that pointer. -/
def VMCluster.Validate (storageSpecValidate : Option StorageSpec → GoRun (Option GoError))
    (c : VMCluster) : GoRun (Option GoError) :=
  match c.Spec.VMStorage with
  | none => GoRun.panics "invalid memory address or nil pointer dereference"
  | some s =>
    match VMStorage.Validate storageSpecValidate s with
    | GoRun.panics msg => GoRun.panics msg
    | GoRun.returns (some err) => GoRun.returns (some err)
    | GoRun.returns none => GoRun.returns none

/-! ### Maps with string keys and values -/

/-- The entries of a non-nil Go `map[string]string`.  The value of a key is the
value of its first entry in the list. -/
abbrev Entries := List (String × String)

/-- Go `v, ok := m[k]` on a non-nil map: `some v` when `k` is a key, `none` otherwise. -/
def entriesGet : Entries → String → Option String
  | [], _ => none
  | (k', v) :: es, k => if k' = k then some v else entriesGet es k

/-- Go `m[k] = v` on a non-nil map: the entry of `k` is overwritten where it stands,
or added at the end when `k` is no key yet. -/
def entriesSet : Entries → String → String → Entries
  | [], k, v => [(k, v)]
  | (k', v') :: es, k, v => if k' = k then (k, v) :: es else (k', v') :: entriesSet es k v

/-- Go `v, ok := m[k]` on a map that may be nil (reading a nil map finds no key). -/
def mapGet (m : GoMap) (k : String) : Option String :=
  match m with
  | none => none
  | some es => entriesGet es k

/-- Go `for k, v := range src { dst[k] = v }` for a non-nil `dst`.  Go visits the
keys of `src` once each, in an order it does not fix; the list of `src` is walked
from its end, so that a key ends with the value `mapGet src` reads for it. -/
def rangeAssign (dst : Entries) (src : GoMap) : Entries :=
  match src with
  | none => dst
  | some es => es.foldr (fun e acc => entriesSet acc e.1 e.2) dst

/-- Stand-in for `metav1.OwnerReference`. -/
structure OwnerReference where
  APIVersion : String := ""
  Kind : String := ""
  Name : String := ""
  UID : String := ""
  Controller : Option Bool := none
  BlockOwnerDeletion : Option Bool := none
  deriving DecidableEq, Repr

/-- Go `VMCluster.AsOwner`; `pointer.BoolPtr(true)` is `some true`. -/
def VMCluster.AsOwner (c : VMCluster) : List OwnerReference :=
  [{ APIVersion := c.toTypeMeta.APIVersion
     Kind := c.toTypeMeta.Kind
     Name := c.toObjectMeta.Name
     UID := c.toObjectMeta.UID
     Controller := some true
     BlockOwnerDeletion := some true }]

/-- Go `VMCluster.VMSelectSelectorLabels`: a map literal, never nil. -/
def VMCluster.VMSelectSelectorLabels (cr : VMCluster) : Entries :=
  [("app.kubernetes.io/name", "vmselect"),
   ("app.kubernetes.io/instance", cr.toObjectMeta.Name),
   ("app.kubernetes.io/component", "monitoring"),
   ("managed-by", "vm-operator")]

/-- Go `VMCluster.VMSelectPodLabels`. -/
def VMCluster.VMSelectPodLabels (cr : VMCluster) : Entries :=
  let labels := cr.VMSelectSelectorLabels
  match cr.Spec.VMSelect with
  | none => labels
  | some s =>
    match s.PodMetadata with
    | none => labels
    | some pm => rangeAssign labels pm.Labels

/-- Go `VMCluster.VMInsertSelectorLabels`: a map literal, never nil. -/
def VMCluster.VMInsertSelectorLabels (cr : VMCluster) : Entries :=
  [("app.kubernetes.io/name", "vminsert"),
   ("app.kubernetes.io/instance", cr.toObjectMeta.Name),
   ("app.kubernetes.io/component", "monitoring"),
   ("managed-by", "vm-operator")]

/-- Go `VMCluster.VMInsertPodLabels`. -/
def VMCluster.VMInsertPodLabels (cr : VMCluster) : Entries :=
  let labels := cr.VMInsertSelectorLabels
  match cr.Spec.VMInsert with
  | none => labels
  | some i =>
    match i.PodMetadata with
    | none => labels
    | some pm => rangeAssign labels pm.Labels

/-- Go `VMCluster.VMStorageSelectorLabels`: a map literal, never nil. -/
def VMCluster.VMStorageSelectorLabels (cr : VMCluster) : Entries :=
  [("app.kubernetes.io/name", "vmstorage"),
   ("app.kubernetes.io/instance", cr.toObjectMeta.Name),
   ("app.kubernetes.io/component", "monitoring"),
   ("managed-by", "vm-operator")]

/-- Go `VMCluster.VMStoragePodLabels` (the source notes above its loop: "TODO fix
it, we cannot allow to overwrite selector labels"). -/
def VMCluster.VMStoragePodLabels (cr : VMCluster) : Entries :=
  let labels := cr.VMStorageSelectorLabels
  match cr.Spec.VMStorage with
  | none => labels
  | some s =>
    match s.PodMetadata with
    | none => labels
    | some pm => rangeAssign labels pm.Labels

/-- Go `VMCluster.FinalLabels`: the result starts as the empty map literal and is
never nil. -/
def VMCluster.FinalLabels (cr : VMCluster) (baseLabels : GoMap) : Entries :=
  let labels : Entries := []
  let labels :=
    match cr.toObjectMeta.Labels with
    | some es => rangeAssign labels (some es)
    | none => labels
  rangeAssign labels baseLabels

/-- The panic of reading a field through a nil pointer. -/
def nilDereference : String := "invalid memory address or nil pointer dereference"

/-- Go `VMCluster.VMSelectPodAnnotations`. -/
def VMCluster.VMSelectPodAnnotations (cr : VMCluster) : GoRun GoMap :=
  match cr.Spec.VMSelect with
  | none => GoRun.returns none
  | some s =>
    match s.PodMetadata with
    | none => GoRun.returns none
    | some pm => GoRun.returns pm.Annotations

/-- Go `VMCluster.VMInsertPodAnnotations`: after the nil checks on `Spec.VMInsert`
the source returns `cr.Spec.VMSelect.PodMetadata.Annotations`, reading through the
two Select pointers without a check. -/
def VMCluster.VMInsertPodAnnotations (cr : VMCluster) : GoRun GoMap :=
  match cr.Spec.VMInsert with
  | none => GoRun.returns none
  | some i =>
    match i.PodMetadata with
    | none => GoRun.returns none
    | some _ =>
      match cr.Spec.VMSelect with
      | none => GoRun.panics nilDereference
      | some s =>
        match s.PodMetadata with
        | none => GoRun.panics nilDereference
        | some pm => GoRun.returns pm.Annotations

/-- Go `VMCluster.VMStoragePodAnnotations`: after the nil checks on `Spec.VMStorage`
the source returns `cr.Spec.VMSelect.PodMetadata.Annotations`, reading through the
two Select pointers without a check. -/
def VMCluster.VMStoragePodAnnotations (cr : VMCluster) : GoRun GoMap :=
  match cr.Spec.VMStorage with
  | none => GoRun.returns none
  | some st =>
    match st.PodMetadata with
    | none => GoRun.returns none
    | some _ =>
      match cr.Spec.VMSelect with
      | none => GoRun.panics nilDereference
      | some s =>
        match s.PodMetadata with
        | none => GoRun.panics nilDereference
        | some pm => GoRun.returns pm.Annotations

/-! ## `vmcluster_controller.go` -/

/-- Go `reconcile.Request`. -/
structure Request where
  toNamespacedName : NamespacedName := {}
  deriving DecidableEq, Repr

/-- Go `reconcile.Result`; the empty result is `{}`. -/
structure Result where
  Requeue : Bool := false
  RequeueAfter : Duration := 0
  deriving DecidableEq, Repr

/-- The calls a reconcile pass can make: the methods of `client.Client` (reader,
writer and status writer) and the package function
`factory.CreateOrUpdateVMCluster`. -/
inductive Call where
  | clientGet (key : NamespacedName)
  | clientList
  | clientCreate (key : NamespacedName)
  | clientDelete (key : NamespacedName)
  | clientUpdate (key : NamespacedName)
  | clientPatch (key : NamespacedName)
  | clientDeleteAllOf
  | clientStatusUpdate (key : NamespacedName)
  | clientStatusPatch (key : NamespacedName)
  | factoryCreateOrUpdateVMCluster (cluster : VMCluster)
  deriving DecidableEq, Repr

/-- A line written to the controller's logger. -/
inductive LogLine where
  | info (msg : String)
  | error (err : GoError) (msg : String)
  deriving DecidableEq, Repr

/-- The part of `client.Client` that `Reconcile` calls itself: `Get` reads the
resource with the given identity from the store `σ` and leaves the store as it is. -/
structure Client (σ : Type) where
  Get : NamespacedName → σ → Except GoError VMCluster

/-- Go `ReconcileVmCluster` (its `scheme` field is not read by `Reconcile`). -/
structure ReconcileVmCluster (σ : Type) where
  client : Client σ

/-- The package-level functions `Reconcile` calls and whose bodies are outside the
sources: `factory.CreateOrUpdateVMCluster(ctx, cluster, rclient, config)`, which
returns a status and an error and may change the store, and
`conf.MustGetBaseConfig()`, whose value has type `κ`. -/
structure Packages (σ κ : Type) where
  CreateOrUpdateVMCluster : VMCluster → Client σ → κ → σ → (String × Option GoError) × σ
  MustGetBaseConfig : κ

/-- What one reconcile pass leaves behind: the two values `Reconcile` returns, the
calls it made and the lines it logged (oldest first), and the resource store. -/
structure Pass (σ : Type) where
  result : Result
  err : Option GoError
  calls : List Call
  logs : List LogLine
  store : σ

/-- Go `ReconcileVmCluster.Reconcile`, run on the store `store`. -/
def ReconcileVmCluster.Reconcile {σ κ : Type} (r : ReconcileVmCluster σ) (pkgs : Packages σ κ)
    (request : Request) (store : σ) : Pass σ :=
  let logs := [LogLine.info "Reconciling VMCluster"]
  let calls := [Call.clientGet request.toNamespacedName]
  match r.client.Get request.toNamespacedName store with
  | Except.error err =>
    if IsNotFound err then
      { result := {}, err := none, calls := calls, logs := logs, store := store }
    else
      { result := {}, err := some err, calls := calls, logs := logs, store := store }
  | Except.ok cluster =>
    -- the call of cluster.Validate() is commented out in the source
    let out := pkgs.CreateOrUpdateVMCluster cluster r.client pkgs.MustGetBaseConfig store
    let status := out.1.1
    let calls := calls ++ [Call.factoryCreateOrUpdateVMCluster cluster]
    match out.1.2 with
    | some err =>
      { result := {}, err := some err, calls := calls
        logs := logs ++ [LogLine.error err "cannot update or create vmcluster"]
        store := out.2 }
    | none =>
      if status = ClusterStatusExpanding then
        { result := { Requeue := true, RequeueAfter := Second * 10 }, err := none, calls := calls
          logs := logs ++ [LogLine.info "cluster still expanding requeue request"]
          store := out.2 }
      else
        { result := {}, err := none, calls := calls, logs := logs, store := out.2 }

/-! ## A concrete resource store, to run the reconciler on -/

/-- An in-memory resource store: the cluster resources it holds, and the error
every request fails with while the store cannot be reached. -/
structure Store where
  clusters : List (NamespacedName × VMCluster) := []
  outage : Option GoError := none
  deriving DecidableEq, Repr

/-- The resource stored under `key`, if any. -/
def Store.find (s : Store) (key : NamespacedName) : Option VMCluster :=
  (s.clusters.find? (fun e => decide (e.1 = key))).map Prod.snd

/-- Reading `key` from the store: the outage error if there is one, a `NotFound`
error if nothing is stored under `key`, the stored resource otherwise. -/
def Store.Get (key : NamespacedName) (s : Store) : Except GoError VMCluster :=
  match s.outage with
  | some err => Except.error err
  | none =>
    match s.find key with
    | some c => Except.ok c
    | none => Except.error { reason := StatusReason.NotFound, message := "not found" }

/-- The client of the in-memory store. -/
def storeClient : Client Store :=
  { Get := Store.Get }

/-- A reconciler on the in-memory store. -/
def storeReconciler : ReconcileVmCluster Store :=
  { client := storeClient }

/-- Packages whose create-or-update call answers with the given status and error
and writes nothing to the store. -/
def answering (status : String) (err : Option GoError) : Packages Store Unit :=
  { CreateOrUpdateVMCluster := fun _ _ _ s => ((status, err), s)
    MustGetBaseConfig := () }

/-- The `updateFailCount` recorded in the store for `key`. -/
def Store.updateFailCount (s : Store) (key : NamespacedName) : Option Int :=
  (s.find key).map (fun c => c.Status.UpdateFailCount)

/-- The `clusterStatus` recorded in the store for `key`. -/
def Store.clusterStatus (s : Store) (key : NamespacedName) : Option String :=
  (s.find key).map (fun c => c.Status.ClusterStatus)


/-! ## The convergence call, from the specification

`factory.CreateOrUpdateVMCluster` is declared in a package whose files are not
among the sources.  The definitions of this section follow the specification of
the Convergence Engine (Section 4.1, steps 2 to 5), the data model (Section 3)
and the resource-store interface (Section 6). -/

/-- Modelled from the spec: the three tiers of a cluster (Storage, Select, Insert);
the sources give no type for them. -/
inductive Tier where
  | Storage
  | Select
  | Insert
  deriving DecidableEq, Repr

/-- Modelled from the spec: a workload object, the unit the absent builder
produces and the absent create-or-update call writes.  `Replicas` and `Template`
(image, resources, scheduling constraints) are the desired fields; `Generation`,
`ObservedGeneration` and `ReadyReplicas` are set by the platform. -/
structure WorkloadObject where
  Kind : String := ""
  Key : NamespacedName := {}
  Owner : List OwnerReference := []
  Replicas : Int := 0
  Template : String := ""
  Generation : Int := 0
  ObservedGeneration : Int := 0
  ReadyReplicas : Int := 0
  deriving DecidableEq, Repr

/-- Modelled from the spec: the resource store the absent call works on.  It holds
the cluster resources and, per tier, the objects of the tier's workload-set; reads
fail during an `outage`, writes to a key listed in `refused` fail with the error
listed; `clock` is the time a status write stamps; `audit` lists every request the
store has served, oldest first. -/
structure World where
  clusters : List (NamespacedName × VMCluster) := []
  workloads : List (Tier × WorkloadObject) := []
  outage : Option GoError := none
  refused : List (NamespacedName × GoError) := []
  clock : String := ""
  audit : List Call := []
  deriving DecidableEq, Repr

/-- Whether a request removes objects: `Delete` and `DeleteAllOf` do. -/
def Call.isDelete : Call → Bool
  | Call.clientDelete _ => true
  | Call.clientDeleteAllOf => true
  | _ => false

/-- Modelled from the spec: the store notes a request it serves in its audit list
(the absent client does this on the platform's side). -/
def World.record (w : World) (c : Call) : World :=
  { w with audit := w.audit ++ [c] }

/-- Modelled from the spec: the error with which the store refuses writes to `key`,
if it does (stands for the absent store's conflicts and failures). -/
def World.refusal (w : World) (key : NamespacedName) : Option GoError :=
  (w.refused.find? (fun e => decide (e.1 = key))).map Prod.snd

/-- Modelled from the spec: get-by-identity for a cluster resource, the read that
`Reconcile` makes through the absent client. -/
def World.GetCluster (key : NamespacedName) (w : World) : Except GoError VMCluster :=
  match w.outage with
  | some err => Except.error err
  | none =>
    match w.clusters.find? (fun e => decide (e.1 = key)) with
    | some e => Except.ok e.2
    | none => Except.error { reason := StatusReason.NotFound, message := "not found" }

/-- Modelled from the spec: the object of tier `t` with the given kind and key, as
the absent store holds it. -/
def World.findWorkload (w : World) (t : Tier) (kind : String) (key : NamespacedName) :
    Option WorkloadObject :=
  (w.workloads.find? (fun e => decide (e.1 = t ∧ e.2.Kind = kind ∧ e.2.Key = key))).map
    Prod.snd

/-- Modelled from the spec: the store's `create` for a workload object of tier `t`
(absent client). -/
def World.Create (t : Tier) (o : WorkloadObject) (w : World) : Option GoError × World :=
  let w := w.record (Call.clientCreate o.Key)
  match w.refusal o.Key with
  | some err => (some err, w)
  | none => (none, { w with workloads := w.workloads ++ [(t, o)] })

/-- Modelled from the spec: the merge-patch of the absent call: the desired fields
of `desired` replace those of the stored object `o`, "unmanaged fields set by the
platform itself are left untouched". -/
def mergePatch (o desired : WorkloadObject) : WorkloadObject :=
  { o with Replicas := desired.Replicas, Template := desired.Template }

/-- Modelled from the spec: the store's conditional update, applying the merge-patch
to the stored object of tier `t` with the kind and key of `desired` (absent client). -/
def World.Patch (t : Tier) (desired : WorkloadObject) (w : World) : Option GoError × World :=
  let w := w.record (Call.clientPatch desired.Key)
  match w.refusal desired.Key with
  | some err => (some err, w)
  | none =>
    (none, { w with workloads := w.workloads.map (fun e =>
      if e.1 = t ∧ e.2.Kind = desired.Kind ∧ e.2.Key = desired.Key then
        (e.1, mergePatch e.2 desired)
      else e) })

/-- Modelled from the spec: the store's `delete` for a workload object; the absent
client offers it, no step of the convergence below uses it. -/
def World.Delete (t : Tier) (kind : String) (key : NamespacedName) (w : World) :
    Option GoError × World :=
  let w := w.record (Call.clientDelete key)
  match w.refusal key with
  | some err => (some err, w)
  | none =>
    (none, { w with workloads := w.workloads.filter (fun e =>
      !decide (e.1 = t ∧ e.2.Kind = kind ∧ e.2.Key = key)) })

/-- Modelled from the spec: a write to the status subtree of the cluster resource
`key` (absent client). -/
def World.StatusUpdate (key : NamespacedName) (f : VMClusterStatus → VMClusterStatus)
    (w : World) : Option GoError × World :=
  let w := w.record (Call.clientStatusUpdate key)
  match w.refusal key with
  | some err => (some err, w)
  | none =>
    (none, { w with clusters := w.clusters.map (fun e =>
      if e.1 = key then (e.1, { e.2 with Status := f e.2.Status }) else e) })

/-- Modelled from the spec: the idempotent create-or-update of one object inside the
absent call: "if no such object exists, create it from the builder's output; if one
exists, compute a merge-patch against the desired fields and apply only if
different". -/
def createOrUpdateObject (t : Tier) (desired : WorkloadObject) (w : World) :
    Option GoError × World :=
  let w := w.record (Call.clientGet desired.Key)
  match w.outage with
  | some err => (some err, w)
  | none =>
    match w.findWorkload t desired.Kind desired.Key with
    | none => World.Create t desired w
    | some o =>
      if o.Replicas = desired.Replicas ∧ o.Template = desired.Template then (none, w)
      else World.Patch t desired w

/-- Modelled from the spec: create-or-update of every object of a tier's
workload-set inside the absent call, stopping at the first store error. -/
def createOrUpdateAll (t : Tier) : List WorkloadObject → World → Option GoError × World
  | [], w => (none, w)
  | o :: os, w =>
    match createOrUpdateObject t o w with
    | (some err, w1) => (some err, w1)
    | (none, w1) => createOrUpdateAll t os w1

/-- Modelled from the spec: the readiness test of the absent call; an object is
still rolling out when "observed ready replicas < desired replicas, or a generation
mismatch between desired and observed template". -/
def rollingOut (o : WorkloadObject) : Bool :=
  decide (o.ReadyReplicas < o.Replicas ∨ o.ObservedGeneration ≠ o.Generation)

/-- Modelled from the spec: whether the workload-set `os` of tier `t` is still
rolling out in the store (absent call); an object the store does not hold is not
ready. -/
def tierRollingOut (t : Tier) (os : List WorkloadObject) (w : World) : Bool :=
  os.any (fun d =>
    match w.findWorkload t d.Kind d.Key with
    | some o => rollingOut o
    | none => true)

/-- Modelled from the spec: whether the cluster declares the tier's
sub-specification (the absent call converges "present tiers" only). -/
def tierDeclared (c : VMCluster) : Tier → Bool
  | Tier.Storage => c.Spec.VMStorage.isSome
  | Tier.Select => c.Spec.VMSelect.isSome
  | Tier.Insert => c.Spec.VMInsert.isSome

/-- Modelled from the spec: the Sub-Resource Builder, an external collaborator of
the absent call: `BuildTierObjects(clusterSpec, tier)` gives the workload objects
of a tier or a build error. -/
abbrev Builder := VMCluster → Tier → Except GoError (List WorkloadObject)

/-- Modelled from the spec: how the convergence of one tier ends inside the absent
call. -/
inductive TierOutcome where
  | ready
  | rolling
  | buildFailed (reason : String)
  | storeError (err : GoError)
  deriving DecidableEq, Repr

/-- Modelled from the spec: the convergence of one tier inside the absent call:
build the tier's workload-set, create-or-update its objects, then test readiness.
A tier the cluster does not declare needs nothing. -/
def convergeTier (build : Builder) (t : Tier) (c : VMCluster) (w : World) :
    TierOutcome × World :=
  if tierDeclared c t then
    match build c t with
    | Except.error err => (TierOutcome.buildFailed err.message, w)
    | Except.ok os =>
      match createOrUpdateAll t os w with
      | (some err, w1) => (TierOutcome.storeError err, w1)
      | (none, w1) =>
        if tierRollingOut t os w1 then (TierOutcome.rolling, w1) else (TierOutcome.ready, w1)
  else (TierOutcome.ready, w)

/-- The identity of a cluster resource. -/
def VMCluster.key (c : VMCluster) : NamespacedName :=
  { Namespace := c.toObjectMeta.Namespace, Name := c.toObjectMeta.Name }

/-- Modelled from the spec: the absent call records a status and returns it: Failed
carries the reason; Operational stamps `lastSync` and resets `updateFailCount`.  A
refused status write is a store error. -/
def settle (c : VMCluster) (status reason : String) (w : World) :
    (String × Option GoError) × World :=
  let out := World.StatusUpdate c.key (fun st =>
    { st with
      ClusterStatus := status
      Reason := reason
      LastSync := if status = ClusterStatusOperational then w.clock else st.LastSync
      UpdateFailCount := if status = ClusterStatusOperational then 0 else st.UpdateFailCount })
    w
  match out.1 with
  | some err => ((c.Status.ClusterStatus, some err), out.2)
  | none => ((status, none), out.2)

/-- Modelled from the spec: on an unexpected store error the absent call
"increments `updateFailCount`, leaves status unchanged" and returns the error. -/
def retryLater (c : VMCluster) (err : GoError) (w : World) :
    (String × Option GoError) × World :=
  let out := World.StatusUpdate c.key (fun st =>
    { st with UpdateFailCount := st.UpdateFailCount + 1 }) w
  ((c.Status.ClusterStatus, some err), out.2)

/-- Modelled from the spec: how the absent call ends on a tier that is not ready:
a store error is retried, a build error is recorded as Failed, a tier that is
rolling out is recorded as Expanding. -/
def stopAt (c : VMCluster) (o : TierOutcome) (w : World) : (String × Option GoError) × World :=
  match o with
  | TierOutcome.storeError err => retryLater c err w
  | TierOutcome.buildFailed reason => settle c ClusterStatusFailed reason w
  | _ => settle c ClusterStatusExpanding "" w

/-- Modelled from the spec: `factory.CreateOrUpdateVMCluster`, which is missing
from the sources.  Step 2: create-or-update the Storage tier; while it is rolling
out, return Expanding and "not proceed to Insert/Select in the same pass".  Step 3:
"once Storage is fully ready, create-or-update the Select tier, then the Insert
tier", each behind the same ready-gate.  Step 4: all present tiers ready gives
Operational.  Step 5: a store error is returned for a retry. -/
def CreateOrUpdateVMCluster (build : Builder) (c : VMCluster) (w : World) :
    (String × Option GoError) × World :=
  match convergeTier build Tier.Storage c w with
  | (TierOutcome.ready, w1) =>
    match convergeTier build Tier.Select c w1 with
    | (TierOutcome.ready, w2) =>
      match convergeTier build Tier.Insert c w2 with
      | (TierOutcome.ready, w3) => settle c ClusterStatusOperational "" w3
      | (o, w3) => stopAt c o w3
    | (o, w2) => stopAt c o w2
  | (o, w1) => stopAt c o w1

/-- The reconciler whose client reads from a `World`. -/
def worldReconciler : ReconcileVmCluster World :=
  { client := { Get := World.GetCluster } }

/-- The packages of a reconciler on a `World`: the create-or-update call is the one
modelled from the specification, with the builder `build`. -/
def specPackages (build : Builder) : Packages World Unit :=
  { CreateOrUpdateVMCluster := fun c _ _ w => CreateOrUpdateVMCluster build c w
    MustGetBaseConfig := () }

/-- The objects of tier `t` in the store. -/
def World.tierObjects (w : World) (t : Tier) : List WorkloadObject :=
  (w.workloads.filter (fun e => decide (e.1 = t))).map Prod.snd

/-- The identity of a stored workload object: its tier, kind and key. -/
def workloadIdentity (e : Tier × WorkloadObject) : Tier × String × NamespacedName :=
  (e.1, e.2.Kind, e.2.Key)

/-- A step from store `w` to store `w'` that removes nothing: the audit list grows
by requests none of which is a delete, the cluster resources keep their keys, and
every workload object of `w` is still there (new ones may follow). -/
def Grows (w w' : World) : Prop :=
  (∃ ops, w'.audit = w.audit ++ ops ∧ ∀ op ∈ ops, Call.isDelete op = false) ∧
  w'.clusters.map Prod.fst = w.clusters.map Prod.fst ∧
  (∃ extra, w'.workloads.map workloadIdentity = w.workloads.map workloadIdentity ++ extra)

/-- A step that removes nothing and leaves the objects of every tier other than `t`
exactly as they are. -/
def Within (t : Tier) (w w' : World) : Prop :=
  Grows w w' ∧ ∀ t', t' ≠ t → w'.tierObjects t' = w.tierObjects t'

/-- One reconcile pass on a `World` with the create-or-update call modelled from the
specification. -/
def specPass (build : Builder) (request : Request) (w : World) : Pass World :=
  worldReconciler.Reconcile (specPackages build) request w

/-! ## Concrete clusters, stores and requests -/

/-- The identity of the cluster `prod` of namespace `monitoring`. -/
def prodKey : NamespacedName :=
  { Namespace := "monitoring", Name := "prod" }

/-- The cluster `monitoring/prod`: three Storage replicas, no Select or Insert tier. -/
def prodCluster : VMCluster :=
  { toTypeMeta := { Kind := "VMCluster", APIVersion := "victoriametrics.com/v1beta1" }
    toObjectMeta := { Name := "prod", Namespace := "monitoring", UID := "u-1" }
    Spec := { RetentionPeriod := "1", VMStorage := some { ReplicaCount := some 3 } } }

/-- The store that holds `prodCluster` and nothing else. -/
def prodStore : Store :=
  { clusters := [(prodKey, prodCluster)] }

/-- The request for `monitoring/prod`. -/
def prodRequest : Request :=
  { toNamespacedName := prodKey }

/-- The store of `prodStore` during an outage: every read fails as unavailable. -/
def downStore : Store :=
  { clusters := [(prodKey, prodCluster)]
    outage := some { reason := StatusReason.ServiceUnavailable, message := "etcd unavailable" } }

/-- A `StorageSpec.Validate` that rejects a persistent-volume request without a size. -/
def rejectEmptySize (sp : Option StorageSpec) : GoRun (Option GoError) :=
  match sp with
  | none => GoRun.returns none
  | some v =>
    if v.Size = "" then
      GoRun.returns (some { reason := StatusReason.Unknown, message := "size is not set" })
    else
      GoRun.returns none

/-- The cluster `monitoring/prod` with a persistent-volume request that has no size. -/
def sizelessCluster : VMCluster :=
  { toTypeMeta := { Kind := "VMCluster", APIVersion := "victoriametrics.com/v1beta1" }
    toObjectMeta := { Name := "prod", Namespace := "monitoring", UID := "u-1" }
    Spec := { RetentionPeriod := "1"
              VMStorage := some { ReplicaCount := some 3, Storage := some { Size := "" } } } }

/-- The store that holds `sizelessCluster` and nothing else. -/
def sizelessStore : Store :=
  { clusters := [(prodKey, sizelessCluster)] }

/-- The cluster `monitoring/prod` with all three tiers, each with pod labels that
name the key "app.kubernetes.io/name" and with pod annotations of its own. -/
def tieredCluster : VMCluster :=
  { toTypeMeta := { Kind := "VMCluster", APIVersion := "victoriametrics.com/v1beta1" }
    toObjectMeta := { Name := "prod", Namespace := "monitoring", UID := "u-1"
                      Labels := some [("env", "live"), ("team", "metrics")] }
    Spec :=
      { RetentionPeriod := "1"
        VMSelect := some
          { PodMetadata := some { Labels := some [("app.kubernetes.io/name", "query")]
                                  Annotations := some [("owner", "select")] } }
        VMInsert := some
          { PodMetadata := some { Labels := some [("app.kubernetes.io/name", "ingest")]
                                  Annotations := some [("owner", "insert")] } }
        VMStorage := some
          { PodMetadata := some { Labels := some [("app.kubernetes.io/name", "disk")]
                                  Annotations := some [("owner", "storage")] } } } }

/-- The cluster `monitoring/prod` with an Insert and a Storage tier that carry pod
annotations, and no Select tier. -/
def selectlessCluster : VMCluster :=
  { toTypeMeta := { Kind := "VMCluster", APIVersion := "victoriametrics.com/v1beta1" }
    toObjectMeta := { Name := "prod", Namespace := "monitoring", UID := "u-1" }
    Spec :=
      { RetentionPeriod := "1"
        VMInsert := some { PodMetadata := some { Annotations := some [("owner", "insert")] } }
        VMStorage := some { PodMetadata := some { Annotations := some [("owner", "storage")] } } } }

/-- The cluster `monitoring/prod` with a Select tier only: no Storage tier is declared. -/
def storagelessCluster : VMCluster :=
  { toTypeMeta := { Kind := "VMCluster", APIVersion := "victoriametrics.com/v1beta1" }
    toObjectMeta := { Name := "prod", Namespace := "monitoring", UID := "u-1" }
    Spec := { RetentionPeriod := "1", VMSelect := some { ReplicaCount := some 2 } } }

/-- Base labels of a workload object: they name "team", as the cluster's labels do. -/
def baseLabels : GoMap :=
  some [("team", "storage"), ("tier", "db")]

/-- A builder for the concrete runs: one StatefulSet for the Storage and for the
Select tier, one Deployment for the Insert tier, named by the tier's `GetName`. -/
def exampleBuild : Builder := fun c t =>
  match t with
  | Tier.Storage =>
    match c.Spec.VMStorage with
    | none => Except.ok []
    | some s => Except.ok
      [{ Kind := "StatefulSet"
         Key := { Namespace := c.toObjectMeta.Namespace, Name := s.GetName c.toObjectMeta.Name }
         Owner := c.AsOwner, Replicas := s.ReplicaCount.getD 0, Template := s.Image.Tag }]
  | Tier.Select =>
    match c.Spec.VMSelect with
    | none => Except.ok []
    | some s => Except.ok
      [{ Kind := "StatefulSet"
         Key := { Namespace := c.toObjectMeta.Namespace, Name := s.GetName c.toObjectMeta.Name }
         Owner := c.AsOwner, Replicas := s.ReplicaCount.getD 0, Template := s.Image.Tag }]
  | Tier.Insert =>
    match c.Spec.VMInsert with
    | none => Except.ok []
    | some i => Except.ok
      [{ Kind := "Deployment"
         Key := { Namespace := c.toObjectMeta.Namespace, Name := i.GetName c.toObjectMeta.Name }
         Owner := c.AsOwner, Replicas := i.ReplicaCount.getD 0, Template := i.Image.Tag }]

/-- The cluster `monitoring/prod` with three Storage and two Select replicas. -/
def gatedCluster : VMCluster :=
  { toTypeMeta := { Kind := "VMCluster", APIVersion := "victoriametrics.com/v1beta1" }
    toObjectMeta := { Name := "prod", Namespace := "monitoring", UID := "u-1" }
    Spec := { RetentionPeriod := "1"
              VMStorage := some { ReplicaCount := some 3 }
              VMSelect := some { ReplicaCount := some 2 } } }

/-- The Storage StatefulSet of `gatedCluster` with `ready` of its three replicas ready. -/
def storageSet (ready : Int) : WorkloadObject :=
  { Kind := "StatefulSet", Key := { Namespace := "monitoring", Name := "vmstorage-prod" }
    Owner := gatedCluster.AsOwner, Replicas := 3, ReadyReplicas := ready }

/-- The store with `gatedCluster` and its Storage StatefulSet at 2 of 3 ready. -/
def expandingWorld : World :=
  { clusters := [(prodKey, gatedCluster)], workloads := [(Tier.Storage, storageSet 2)]
    clock := "2020-06-01T12:00:00Z" }

/-- The store with `gatedCluster` and its Storage StatefulSet at 3 of 3 ready. -/
def readyWorld : World :=
  { clusters := [(prodKey, gatedCluster)], workloads := [(Tier.Storage, storageSet 3)]
    clock := "2020-06-01T12:00:00Z" }

/-! ## Naming of tier objects -/

/-- C1 (as stated, refuted): with the name override "db" set, `GetName "prod"` is
"vmstorage-db", "vminsert-db", "vmselect-db" for the three tiers, not the override
"db" itself. -/
theorem getName_override_not_verbatim :
    (VMStorage.GetName { Name := "db" } "prod" = "vmstorage-db" ∧
      VMStorage.GetName { Name := "db" } "prod" ≠ "db") ∧
    (VmInsert.GetName { Name := "db" } "prod" = "vminsert-db" ∧
      VmInsert.GetName { Name := "db" } "prod" ≠ "db") ∧
    (VMSelect.GetName { Name := "db" } "prod" = "vmselect-db" ∧
      VMSelect.GetName { Name := "db" } "prod" ≠ "db") := by
  decide

/-- C1 (amended): for a tier sub-specification with a non-empty name override and
every cluster name, `GetName` is the tier's fixed word, a hyphen, then the
override; the cluster name is not part of it. -/
theorem getName_of_override (clusterName : String) :
    (∀ s : VMStorage, s.Name ≠ "" → s.GetName clusterName = "vmstorage-" ++ s.Name) ∧
    (∀ i : VmInsert, i.Name ≠ "" → i.GetName clusterName = "vminsert-" ++ i.Name) ∧
    (∀ s : VMSelect, s.Name ≠ "" → s.GetName clusterName = "vmselect-" ++ s.Name) := by
  refine ⟨fun s h => ?_, fun i h => ?_, fun s h => ?_⟩
  · simp only [VMStorage.GetName, PrefixedName, if_neg h]
    rfl
  · simp only [VmInsert.GetName, PrefixedName, if_neg h]
    rfl
  · simp only [VMSelect.GetName, PrefixedName, if_neg h]
    rfl

/-- Witness of `getName_of_override`: the override "db" in a cluster named "prod". -/
theorem getName_of_override_witness :
    VMStorage.GetName { Name := "db" } "prod" = "vmstorage-" ++ "db" ∧
    VmInsert.GetName { Name := "db" } "prod" = "vminsert-" ++ "db" ∧
    VMSelect.GetName { Name := "db" } "prod" = "vmselect-" ++ "db" :=
  ⟨(getName_of_override "prod").1 { Name := "db" } (by decide),
   (getName_of_override "prod").2.1 { Name := "db" } (by decide),
   (getName_of_override "prod").2.2 { Name := "db" } (by decide)⟩

/-- C2: for a tier sub-specification with an empty name override and every cluster
name `c`, `GetName c` is "vmstorage-" ++ c, "vminsert-" ++ c, "vmselect-" ++ c for
the Storage, Insert and Select tier; two sub-specifications of a tier that both
have an empty override get the same name, whatever their other fields hold. -/
theorem getName_of_empty_override (c : String) :
    (∀ s : VMStorage, s.Name = "" → s.GetName c = "vmstorage-" ++ c) ∧
    (∀ i : VmInsert, i.Name = "" → i.GetName c = "vminsert-" ++ c) ∧
    (∀ s : VMSelect, s.Name = "" → s.GetName c = "vmselect-" ++ c) ∧
    (∀ s t : VMStorage, s.Name = "" → t.Name = "" → s.GetName c = t.GetName c) ∧
    (∀ i j : VmInsert, i.Name = "" → j.Name = "" → i.GetName c = j.GetName c) ∧
    (∀ s t : VMSelect, s.Name = "" → t.Name = "" → s.GetName c = t.GetName c) := by
  refine ⟨fun s h => ?_, fun i h => ?_, fun s h => ?_, fun s t hs ht => ?_,
    fun i j hi hj => ?_, fun s t hs ht => ?_⟩
  · simp only [VMStorage.GetName, PrefixedName, if_pos h]
    rfl
  · simp only [VmInsert.GetName, PrefixedName, if_pos h]
    rfl
  · simp only [VMSelect.GetName, PrefixedName, if_pos h]
    rfl
  · simp only [VMStorage.GetName, if_pos hs, if_pos ht]
  · simp only [VmInsert.GetName, if_pos hi, if_pos hj]
  · simp only [VMSelect.GetName, if_pos hs, if_pos ht]

/-- Witness of `getName_of_empty_override`: the Storage tier of a cluster named
"prod", declared once bare and once with three replicas and a port. -/
theorem getName_of_empty_override_witness :
    VMStorage.GetName {} "prod" = "vmstorage-" ++ "prod" ∧
    VMStorage.GetName {} "prod" =
      VMStorage.GetName { ReplicaCount := some 3, Port := "8482" } "prod" :=
  ⟨(getName_of_empty_override "prod").1 {} (by decide),
   (getName_of_empty_override "prod").2.2.2.1 {} { ReplicaCount := some 3, Port := "8482" }
     (by decide) (by decide)⟩

/-! ## Theorems on the reconcile pass -/

/-- C3: when the cluster is read and `factory.CreateOrUpdateVMCluster` returns the
status Expanding and a nil error, `Reconcile` returns `Requeue = true`,
`RequeueAfter` = 10 seconds (10000000000 ns) and a nil error. -/
theorem reconcile_expanding_requeues {σ κ : Type} (r : ReconcileVmCluster σ)
    (pkgs : Packages σ κ) (request : Request) (store : σ) (cluster : VMCluster)
    (hget : r.client.Get request.toNamespacedName store = Except.ok cluster)
    (hstatus : (pkgs.CreateOrUpdateVMCluster cluster r.client pkgs.MustGetBaseConfig store).1
      = (ClusterStatusExpanding, none)) :
    (r.Reconcile pkgs request store).result.Requeue = true ∧
    (r.Reconcile pkgs request store).result.RequeueAfter = 10 * Second ∧
    (r.Reconcile pkgs request store).result.RequeueAfter = 10000000000 ∧
    (r.Reconcile pkgs request store).err = none := by
  simp [ReconcileVmCluster.Reconcile, hget, hstatus, Second]

/-- Witness of `reconcile_expanding_requeues`: `monitoring/prod` while its Storage
tier is still expanding. -/
theorem reconcile_expanding_requeues_witness :
    (storeReconciler.Reconcile (answering ClusterStatusExpanding none) prodRequest
      prodStore).result.Requeue = true ∧
    (storeReconciler.Reconcile (answering ClusterStatusExpanding none) prodRequest
      prodStore).result.RequeueAfter = 10 * Second ∧
    (storeReconciler.Reconcile (answering ClusterStatusExpanding none) prodRequest
      prodStore).result.RequeueAfter = 10000000000 ∧
    (storeReconciler.Reconcile (answering ClusterStatusExpanding none) prodRequest
      prodStore).err = none :=
  reconcile_expanding_requeues storeReconciler (answering ClusterStatusExpanding none)
    prodRequest prodStore prodCluster rfl rfl

/-- C5 (as stated, refuted): the cluster `sizelessCluster` fails validation, yet a
reconcile pass on it invokes the create-or-update call, returns no error, and
leaves the stored cluster without the status Failed and without a reason. -/
theorem reconcile_invalid_cluster_still_converged :
    VMCluster.Validate rejectEmptySize sizelessCluster =
      GoRun.returns (some { reason := StatusReason.Unknown
                            message := "invalid persitance volime spec for :size is not set" }) ∧
    (storeReconciler.Reconcile (answering ClusterStatusOperational none) prodRequest
      sizelessStore).calls =
      [Call.clientGet prodKey, Call.factoryCreateOrUpdateVMCluster sizelessCluster] ∧
    (storeReconciler.Reconcile (answering ClusterStatusOperational none) prodRequest
      sizelessStore).err = none ∧
    (storeReconciler.Reconcile (answering ClusterStatusOperational none) prodRequest
      sizelessStore).store.clusterStatus prodKey ≠ some ClusterStatusFailed ∧
    ((storeReconciler.Reconcile (answering ClusterStatusOperational none) prodRequest
      sizelessStore).store.find prodKey).map (fun c => c.Status.Reason) = some "" := by
  decide

/-- C5 (amended): `Reconcile` does not validate.  For every cluster that is read,
also one whose `Validate` returns an error, the pass invokes the create-or-update
call with that cluster, the store it leaves is the one that call left, and the
error it returns is the error of that call. -/
theorem reconcile_does_not_validate {σ κ : Type}
    (storageSpecValidate : Option StorageSpec → GoRun (Option GoError))
    (r : ReconcileVmCluster σ) (pkgs : Packages σ κ) (request : Request) (store : σ)
    (cluster : VMCluster) (verr : GoError)
    (hget : r.client.Get request.toNamespacedName store = Except.ok cluster)
    (_hinvalid : VMCluster.Validate storageSpecValidate cluster = GoRun.returns (some verr)) :
    (r.Reconcile pkgs request store).calls =
      [Call.clientGet request.toNamespacedName, Call.factoryCreateOrUpdateVMCluster cluster] ∧
    (r.Reconcile pkgs request store).store =
      (pkgs.CreateOrUpdateVMCluster cluster r.client pkgs.MustGetBaseConfig store).2 ∧
    (r.Reconcile pkgs request store).err =
      (pkgs.CreateOrUpdateVMCluster cluster r.client pkgs.MustGetBaseConfig store).1.2 := by
  simp only [ReconcileVmCluster.Reconcile, hget]
  split
  · next err herr => simp [herr]
  · next herr => split <;> simp [herr]

/-- Witness of `reconcile_does_not_validate`: `sizelessCluster`, which the validator
`rejectEmptySize` rejects. -/
theorem reconcile_does_not_validate_witness :
    (storeReconciler.Reconcile (answering ClusterStatusOperational none) prodRequest
      sizelessStore).calls =
      [Call.clientGet prodKey, Call.factoryCreateOrUpdateVMCluster sizelessCluster] ∧
    (storeReconciler.Reconcile (answering ClusterStatusOperational none) prodRequest
      sizelessStore).store = sizelessStore ∧
    (storeReconciler.Reconcile (answering ClusterStatusOperational none) prodRequest
      sizelessStore).err = none :=
  reconcile_does_not_validate rejectEmptySize storeReconciler
    (answering ClusterStatusOperational none) prodRequest sizelessStore sizelessCluster
    { reason := StatusReason.Unknown
      message := "invalid persitance volime spec for :size is not set" } rfl rfl

/-- C6: when the cluster read fails with a NotFound error, `Reconcile` returns the
empty result and a nil error, and its only call is the `Get`: the create-or-update
call is not invoked and the store is as before. -/
theorem reconcile_not_found {σ κ : Type} (r : ReconcileVmCluster σ) (pkgs : Packages σ κ)
    (request : Request) (store : σ) (e : GoError)
    (hget : r.client.Get request.toNamespacedName store = Except.error e)
    (hnf : IsNotFound e = true) :
    (r.Reconcile pkgs request store).result = { Requeue := false, RequeueAfter := 0 } ∧
    (r.Reconcile pkgs request store).err = none ∧
    (r.Reconcile pkgs request store).calls = [Call.clientGet request.toNamespacedName] ∧
    (∀ c, Call.factoryCreateOrUpdateVMCluster c ∉ (r.Reconcile pkgs request store).calls) ∧
    (r.Reconcile pkgs request store).store = store := by
  simp [ReconcileVmCluster.Reconcile, hget, hnf]

/-- Witness of `reconcile_not_found`: a request for `monitoring/prod` on an empty store. -/
theorem reconcile_not_found_witness :
    (storeReconciler.Reconcile (answering ClusterStatusOperational none) prodRequest
      {}).result = { Requeue := false, RequeueAfter := 0 } ∧
    (storeReconciler.Reconcile (answering ClusterStatusOperational none) prodRequest
      {}).err = none ∧
    (storeReconciler.Reconcile (answering ClusterStatusOperational none) prodRequest
      {}).calls = [Call.clientGet prodKey] :=
  ⟨(reconcile_not_found storeReconciler (answering ClusterStatusOperational none) prodRequest
      {} { reason := StatusReason.NotFound, message := "not found" } rfl rfl).1,
   (reconcile_not_found storeReconciler (answering ClusterStatusOperational none) prodRequest
      {} { reason := StatusReason.NotFound, message := "not found" } rfl rfl).2.1,
   (reconcile_not_found storeReconciler (answering ClusterStatusOperational none) prodRequest
      {} { reason := StatusReason.NotFound, message := "not found" } rfl rfl).2.2.1⟩

/-- C7: when the cluster read fails with an error that is not NotFound, or the
create-or-update call returns an error, `Reconcile` returns that same error with
the empty result; it makes no write call of its own, so the store (and the
`clusterStatus` in it) is as the read found it, respectively as the
create-or-update call left it. -/
theorem reconcile_returns_the_error {σ κ : Type} (r : ReconcileVmCluster σ)
    (pkgs : Packages σ κ) (request : Request) (store : σ) :
    (∀ e, r.client.Get request.toNamespacedName store = Except.error e →
      IsNotFound e = false →
        (r.Reconcile pkgs request store).result = { Requeue := false, RequeueAfter := 0 } ∧
        (r.Reconcile pkgs request store).err = some e ∧
        (r.Reconcile pkgs request store).calls = [Call.clientGet request.toNamespacedName] ∧
        (r.Reconcile pkgs request store).store = store) ∧
    (∀ cluster e, r.client.Get request.toNamespacedName store = Except.ok cluster →
      (pkgs.CreateOrUpdateVMCluster cluster r.client pkgs.MustGetBaseConfig store).1.2 = some e →
        (r.Reconcile pkgs request store).result = { Requeue := false, RequeueAfter := 0 } ∧
        (r.Reconcile pkgs request store).err = some e ∧
        (r.Reconcile pkgs request store).calls =
          [Call.clientGet request.toNamespacedName,
            Call.factoryCreateOrUpdateVMCluster cluster] ∧
        (r.Reconcile pkgs request store).store =
          (pkgs.CreateOrUpdateVMCluster cluster r.client pkgs.MustGetBaseConfig store).2) := by
  refine ⟨fun e hget hnf => ?_, fun cluster e hget herr => ?_⟩
  · simp [ReconcileVmCluster.Reconcile, hget, hnf]
  · simp [ReconcileVmCluster.Reconcile, hget, herr]

/-- Witness of `reconcile_returns_the_error`: a read during an outage, and a
create-or-update call that fails with a conflict. -/
theorem reconcile_returns_the_error_witness :
    ((storeReconciler.Reconcile (answering ClusterStatusOperational none) prodRequest
        downStore).err =
        some { reason := StatusReason.ServiceUnavailable, message := "etcd unavailable" } ∧
      (storeReconciler.Reconcile (answering ClusterStatusOperational none) prodRequest
        downStore).store.clusterStatus prodKey = downStore.clusterStatus prodKey) ∧
    ((storeReconciler.Reconcile
        (answering ClusterStatusFailed (some { reason := StatusReason.Conflict, message := "conflict" }))
        prodRequest prodStore).err =
        some { reason := StatusReason.Conflict, message := "conflict" } ∧
      (storeReconciler.Reconcile
        (answering ClusterStatusFailed (some { reason := StatusReason.Conflict, message := "conflict" }))
        prodRequest prodStore).result = { Requeue := false, RequeueAfter := 0 }) :=
  ⟨⟨((reconcile_returns_the_error storeReconciler (answering ClusterStatusOperational none)
        prodRequest downStore).1 _ rfl rfl).2.1,
    congrArg (fun s => Store.clusterStatus s prodKey)
      ((reconcile_returns_the_error storeReconciler (answering ClusterStatusOperational none)
        prodRequest downStore).1 _ rfl rfl).2.2.2⟩,
   ⟨((reconcile_returns_the_error storeReconciler
        (answering ClusterStatusFailed (some { reason := StatusReason.Conflict, message := "conflict" }))
        prodRequest prodStore).2 prodCluster _ rfl rfl).2.1,
    ((reconcile_returns_the_error storeReconciler
        (answering ClusterStatusFailed (some { reason := StatusReason.Conflict, message := "conflict" }))
        prodRequest prodStore).2 prodCluster _ rfl rfl).1⟩⟩

/-- C8 (as stated, refuted): a pass on `monitoring/prod` during an outage ends with
the outage error, which is not NotFound, and the `updateFailCount` stored for the
cluster is 0 before the pass and 0 after it, not 1. -/
theorem reconcile_outage_keeps_fail_count :
    (storeReconciler.Reconcile (answering ClusterStatusOperational none) prodRequest
      downStore).err =
      some { reason := StatusReason.ServiceUnavailable, message := "etcd unavailable" } ∧
    IsNotFound { reason := StatusReason.ServiceUnavailable, message := "etcd unavailable" }
      = false ∧
    downStore.updateFailCount prodKey = some 0 ∧
    (storeReconciler.Reconcile (answering ClusterStatusOperational none) prodRequest
      downStore).store.updateFailCount prodKey = some 0 ∧
    (storeReconciler.Reconcile (answering ClusterStatusOperational none) prodRequest
      downStore).store.updateFailCount prodKey ≠
      (downStore.updateFailCount prodKey).map (fun n => n + 1) := by
  decide

/-- C8 (amended): `Reconcile` itself never writes `updateFailCount`.  However the
count is read out of the store (`failCount`), after a pass that ends with a failed
read other than NotFound it is what it was before the pass, and after a pass that
ends with a failed create-or-update call it is what that call left. -/
theorem reconcile_error_fail_count {σ κ : Type} (failCount : σ → NamespacedName → Option Int)
    (r : ReconcileVmCluster σ) (pkgs : Packages σ κ) (request : Request) (store : σ) :
    (∀ e, r.client.Get request.toNamespacedName store = Except.error e →
      IsNotFound e = false →
        failCount (r.Reconcile pkgs request store).store request.toNamespacedName =
          failCount store request.toNamespacedName) ∧
    (∀ cluster e, r.client.Get request.toNamespacedName store = Except.ok cluster →
      (pkgs.CreateOrUpdateVMCluster cluster r.client pkgs.MustGetBaseConfig store).1.2 = some e →
        failCount (r.Reconcile pkgs request store).store request.toNamespacedName =
          failCount (pkgs.CreateOrUpdateVMCluster cluster r.client pkgs.MustGetBaseConfig
            store).2 request.toNamespacedName) := by
  refine ⟨fun e hget hnf => ?_, fun cluster e hget herr => ?_⟩
  · simp [ReconcileVmCluster.Reconcile, hget, hnf]
  · simp [ReconcileVmCluster.Reconcile, hget, herr]

/-- Witness of `reconcile_error_fail_count`: the pass on `monitoring/prod` during an
outage. -/
theorem reconcile_error_fail_count_witness :
    (storeReconciler.Reconcile (answering ClusterStatusOperational none) prodRequest
      downStore).store.updateFailCount prodKey = downStore.updateFailCount prodKey :=
  (reconcile_error_fail_count Store.updateFailCount storeReconciler
    (answering ClusterStatusOperational none) prodRequest downStore).1
    { reason := StatusReason.ServiceUnavailable, message := "etcd unavailable" } rfl rfl

/-- C9: when the cluster is read and the create-or-update call returns a nil error
and a status other than Expanding, `Reconcile` returns the empty result
(`Requeue = false`, `RequeueAfter = 0`) and a nil error. -/
theorem reconcile_settled_no_requeue {σ κ : Type} (r : ReconcileVmCluster σ)
    (pkgs : Packages σ κ) (request : Request) (store : σ) (cluster : VMCluster)
    (hget : r.client.Get request.toNamespacedName store = Except.ok cluster)
    (herr : (pkgs.CreateOrUpdateVMCluster cluster r.client pkgs.MustGetBaseConfig store).1.2
      = none)
    (hstatus : (pkgs.CreateOrUpdateVMCluster cluster r.client pkgs.MustGetBaseConfig store).1.1
      ≠ ClusterStatusExpanding) :
    (r.Reconcile pkgs request store).result = { Requeue := false, RequeueAfter := 0 } ∧
    (r.Reconcile pkgs request store).err = none := by
  simp [ReconcileVmCluster.Reconcile, hget, herr, hstatus]

/-- Witness of `reconcile_settled_no_requeue`: `monitoring/prod` reported Operational. -/
theorem reconcile_settled_no_requeue_witness :
    (storeReconciler.Reconcile (answering ClusterStatusOperational none) prodRequest
      prodStore).result = { Requeue := false, RequeueAfter := 0 } ∧
    (storeReconciler.Reconcile (answering ClusterStatusOperational none) prodRequest
      prodStore).err = none :=
  reconcile_settled_no_requeue storeReconciler (answering ClusterStatusOperational none)
    prodRequest prodStore prodCluster rfl rfl (by decide)


/-! ## Owner reference, labels, annotations and validation -/

/-- C11: for every cluster resource `c`, `AsOwner` is a list of exactly one owner
reference; its APIVersion, Kind, Name and UID are those of `c`, and its Controller
and BlockOwnerDeletion flags are both set to true. -/
theorem asOwner_single_controller_reference (c : VMCluster) :
    c.AsOwner.length = 1 ∧
    ∃ o, c.AsOwner = [o] ∧
      o.APIVersion = c.toTypeMeta.APIVersion ∧ o.Kind = c.toTypeMeta.Kind ∧
      o.Name = c.toObjectMeta.Name ∧ o.UID = c.toObjectMeta.UID ∧
      o.Controller = some true ∧ o.BlockOwnerDeletion = some true :=
  ⟨rfl, _, rfl, rfl, rfl, rfl, rfl, rfl, rfl⟩

/-- C12 (the code at the failing input): in `tieredCluster` each tier's pod labels
name "app.kubernetes.io/name"; the selector labels of the Storage, Select and
Insert tier hold "vmstorage", "vmselect", "vminsert" under that key, while the pod
labels hold the user's "disk", "query", "ingest": the selector label is overwritten. -/
theorem podLabels_overwrite_selector_labels :
    (entriesGet tieredCluster.VMStorageSelectorLabels "app.kubernetes.io/name"
        = some "vmstorage" ∧
      entriesGet tieredCluster.VMStoragePodLabels "app.kubernetes.io/name" = some "disk") ∧
    (entriesGet tieredCluster.VMSelectSelectorLabels "app.kubernetes.io/name"
        = some "vmselect" ∧
      entriesGet tieredCluster.VMSelectPodLabels "app.kubernetes.io/name" = some "query") ∧
    (entriesGet tieredCluster.VMInsertSelectorLabels "app.kubernetes.io/name"
        = some "vminsert" ∧
      entriesGet tieredCluster.VMInsertPodLabels "app.kubernetes.io/name" = some "ingest") := by
  decide

/-- C13 (the code at the failing input): in `tieredCluster` the Insert and the
Storage accessor return the annotations of the Select tier, not their own; in
`selectlessCluster`, where no Select tier is declared, both panic.  The Select
accessor returns the Select tier's annotations. -/
theorem podAnnotations_of_other_tiers_read_select :
    tieredCluster.VMSelectPodAnnotations = GoRun.returns (some [("owner", "select")]) ∧
    tieredCluster.VMInsertPodAnnotations = GoRun.returns (some [("owner", "select")]) ∧
    tieredCluster.VMStoragePodAnnotations = GoRun.returns (some [("owner", "select")]) ∧
    selectlessCluster.VMInsertPodAnnotations = GoRun.panics nilDereference ∧
    selectlessCluster.VMStoragePodAnnotations = GoRun.panics nilDereference := by
  decide

/-- C14 (the code at the failing input): on `storagelessCluster`, which declares no
Storage tier, `Validate` panics with a nil pointer dereference, whatever
`StorageSpec.Validate` does; it returns neither nil nor an error. -/
theorem validate_panics_without_storage
    (storageSpecValidate : Option StorageSpec → GoRun (Option GoError)) :
    VMCluster.Validate storageSpecValidate storagelessCluster =
      GoRun.panics "invalid memory address or nil pointer dereference" ∧
    ∀ err, VMCluster.Validate storageSpecValidate storagelessCluster ≠ GoRun.returns err := by
  refine ⟨rfl, fun err h => ?_⟩
  have hp : VMCluster.Validate storageSpecValidate storagelessCluster =
      GoRun.panics "invalid memory address or nil pointer dereference" := rfl
  rw [hp] at h
  cases h

/-! ### Reading a map after assignments -/

/-- After `m[k] = v`, the key `k` reads `v` and every other key reads as before. -/
theorem entriesGet_entriesSet (es : Entries) (k v k' : String) :
    entriesGet (entriesSet es k v) k' = if k = k' then some v else entriesGet es k' := by
  induction es with
  | nil =>
    simp [entriesSet, entriesGet]
  | cons e es ih =>
    obtain ⟨a, b⟩ := e
    by_cases hak : a = k
    · subst hak
      by_cases hk : a = k' <;> simp [entriesSet, entriesGet, hk]
    · by_cases hk : k = k'
      · subst hk
        simp [entriesSet, entriesGet, hak, ih]
      · simp [entriesSet, entriesGet, hak, ih, hk]

/-- After `for k, v := range src { dst[k] = v }`, a key of `src` reads its value in
`src` and every other key reads as before. -/
theorem entriesGet_rangeAssign (dst : Entries) (src : GoMap) (k : String) :
    entriesGet (rangeAssign dst src) k =
      match mapGet src k with
      | some v => some v
      | none => entriesGet dst k := by
  cases src with
  | none => simp [rangeAssign, mapGet]
  | some es =>
    simp only [rangeAssign, mapGet]
    induction es with
    | nil => simp [entriesGet]
    | cons e es ih =>
      obtain ⟨a, b⟩ := e
      simp only [List.foldr_cons, entriesGet_entriesSet, entriesGet]
      by_cases hak : a = k
      · simp [hak]
      · simp [hak, ih]

/-- Reading `FinalLabels`: the value in the base labels if the key is there, the
value in the cluster's metadata labels otherwise. -/
theorem entriesGet_finalLabels (cr : VMCluster) (b : GoMap) (k : String) :
    entriesGet (cr.FinalLabels b) k =
      match mapGet b k with
      | some v => some v
      | none => mapGet cr.toObjectMeta.Labels k := by
  simp only [VMCluster.FinalLabels, entriesGet_rangeAssign]
  cases hb : mapGet b k with
  | some v => rfl
  | none =>
    cases hl : cr.toObjectMeta.Labels with
    | none => simp [mapGet, entriesGet]
    | some es =>
      simp only [entriesGet_rangeAssign, entriesGet]
      cases hg : mapGet (some es) k <;> rfl

/-- C15: for every cluster resource, base label map `b` and key `k`: `k` is a key
of `FinalLabels b` exactly when it is a key of the cluster's metadata labels or of
`b`; a key of `b` maps to its value in `b`; any other key maps to its value in the
metadata labels; and with nil metadata labels the result reads as `b` does. -/
theorem finalLabels_union_base_wins (cr : VMCluster) (b : GoMap) (k : String) :
    ((entriesGet (cr.FinalLabels b) k).isSome = true ↔
      (mapGet cr.toObjectMeta.Labels k).isSome = true ∨ (mapGet b k).isSome = true) ∧
    (∀ v, mapGet b k = some v → entriesGet (cr.FinalLabels b) k = some v) ∧
    (mapGet b k = none →
      entriesGet (cr.FinalLabels b) k = mapGet cr.toObjectMeta.Labels k) ∧
    (cr.toObjectMeta.Labels = none → entriesGet (cr.FinalLabels b) k = mapGet b k) := by
  rw [entriesGet_finalLabels]
  refine ⟨?_, fun v hv => ?_, fun hb => ?_, fun hl => ?_⟩
  · cases hb : mapGet b k <;> simp
  · simp [hv]
  · simp [hb]
  · cases hb : mapGet b k <;> simp [hl, mapGet]

/-- Witness of `finalLabels_union_base_wins`: the labels of `tieredCluster` under
`baseLabels`; "team" is in both and takes the base value, "env" is in the cluster's
labels only, and the cluster without labels `prodCluster` reads as the base labels. -/
theorem finalLabels_union_base_wins_witness :
    entriesGet (tieredCluster.FinalLabels baseLabels) "team" = some "storage" ∧
    entriesGet (tieredCluster.FinalLabels baseLabels) "env" =
      mapGet tieredCluster.toObjectMeta.Labels "env" ∧
    entriesGet (prodCluster.FinalLabels baseLabels) "tier" = mapGet baseLabels "tier" :=
  ⟨(finalLabels_union_base_wins tieredCluster baseLabels "team").2.1 "storage" rfl,
   (finalLabels_union_base_wins tieredCluster baseLabels "env").2.2.1 rfl,
   (finalLabels_union_base_wins prodCluster baseLabels "tier").2.2.2 rfl⟩

/-! ## The modelled convergence call removes nothing and works one tier at a time -/

theorem grows_refl (w : World) : Grows w w :=
  ⟨⟨[], by simp, by simp⟩, rfl, ⟨[], by simp⟩⟩

theorem grows_trans {a b c : World} (h1 : Grows a b) (h2 : Grows b c) : Grows a c := by
  obtain ⟨⟨o1, ha1, hd1⟩, hc1, ⟨e1, hw1⟩⟩ := h1
  obtain ⟨⟨o2, ha2, hd2⟩, hc2, ⟨e2, hw2⟩⟩ := h2
  refine ⟨⟨o1 ++ o2, by rw [ha2, ha1, List.append_assoc], ?_⟩, hc2.trans hc1,
    ⟨e1 ++ e2, by rw [hw2, hw1, List.append_assoc]⟩⟩
  intro op hop
  rcases List.mem_append.mp hop with h | h
  · exact hd1 op h
  · exact hd2 op h

theorem within_refl (t : Tier) (w : World) : Within t w w :=
  ⟨grows_refl w, fun _ _ => rfl⟩

theorem within_trans {t : Tier} {a b c : World} (h1 : Within t a b) (h2 : Within t b c) :
    Within t a c :=
  ⟨grows_trans h1.1 h2.1, fun t' ht => (h2.2 t' ht).trans (h1.2 t' ht)⟩

/-- Noting a request that is no delete changes the audit list only. -/
theorem within_record (t : Tier) (w : World) (c : Call) (hc : Call.isDelete c = false) :
    Within t w (w.record c) := by
  refine ⟨⟨⟨[c], rfl, ?_⟩, rfl, ⟨[], by simp [World.record]⟩⟩, fun _ _ => rfl⟩
  intro op hop
  rw [List.mem_singleton.mp hop]
  exact hc

/-- Patching entries of tier `t` leaves the entries of another tier as they are. -/
theorem filter_map_other_tier (t t' : Tier) (ht : t' ≠ t)
    (f : Tier × WorkloadObject → Tier × WorkloadObject)
    (hf1 : ∀ e, (f e).1 = e.1) (hf2 : ∀ e, e.1 ≠ t → f e = e)
    (l : List (Tier × WorkloadObject)) :
    (l.map f).filter (fun e => decide (e.1 = t')) = l.filter (fun e => decide (e.1 = t')) := by
  induction l with
  | nil => rfl
  | cons e l ih =>
    simp only [List.map_cons, List.filter_cons, hf1, ih]
    by_cases he : e.1 = t'
    · have : f e = e := hf2 e (by rw [he]; exact ht)
      simp [he, this]
    · simp [he]

theorem within_create (t : Tier) (o : WorkloadObject) (w : World) :
    Within t w (World.Create t o w).2 := by
  unfold World.Create
  simp only []
  split
  · exact within_record t w _ rfl
  · refine within_trans (within_record t w (Call.clientCreate o.Key) rfl) ?_
    refine ⟨⟨⟨[], by simp, by simp⟩, rfl, ⟨[workloadIdentity (t, o)], by simp⟩⟩, ?_⟩
    intro t' ht
    have hne : ¬ t = t' := fun h => ht h.symm
    simp [World.tierObjects, List.filter_append, hne]

theorem within_patch (t : Tier) (d : WorkloadObject) (w : World) :
    Within t w (World.Patch t d w).2 := by
  unfold World.Patch
  simp only []
  split
  · exact within_record t w _ rfl
  · refine within_trans (within_record t w (Call.clientPatch d.Key) rfl) ?_
    refine ⟨⟨⟨[], by simp, by simp⟩, rfl, ⟨[], ?_⟩⟩, ?_⟩
    · simp only [List.map_map, List.append_nil]
      apply List.map_congr_left
      intro e _
      simp only [Function.comp]
      split <;> rfl
    · intro t' ht
      simp only [World.tierObjects]
      rw [filter_map_other_tier t t' ht]
      · intro e
        split <;> rfl
      · intro e he
        rw [if_neg]
        exact fun h => he h.1

theorem within_statusUpdate (t : Tier) (key : NamespacedName)
    (f : VMClusterStatus → VMClusterStatus) (w : World) :
    Within t w (World.StatusUpdate key f w).2 := by
  unfold World.StatusUpdate
  simp only []
  split
  · exact within_record t w _ rfl
  · refine within_trans (within_record t w (Call.clientStatusUpdate key) rfl) ?_
    refine ⟨⟨⟨[], by simp, by simp⟩, ?_, ⟨[], by simp⟩⟩, fun _ _ => rfl⟩
    simp only [List.map_map]
    apply List.map_congr_left
    intro e _
    simp only [Function.comp]
    split <;> rfl

theorem within_createOrUpdateObject (t : Tier) (d : WorkloadObject) (w : World) :
    Within t w (createOrUpdateObject t d w).2 := by
  unfold createOrUpdateObject
  simp only []
  have hr := within_record t w (Call.clientGet d.Key) rfl
  split
  · exact hr
  · split
    · exact within_trans hr (within_create t d _)
    · split
      · exact hr
      · exact within_trans hr (within_patch t d _)

theorem within_createOrUpdateAll (t : Tier) (os : List WorkloadObject) (w : World) :
    Within t w (createOrUpdateAll t os w).2 := by
  induction os generalizing w with
  | nil => exact within_refl t w
  | cons o os ih =>
    unfold createOrUpdateAll
    have ho := within_createOrUpdateObject t o w
    split
    · next err w1 h => rw [h] at ho; exact ho
    · next w1 h => rw [h] at ho; exact within_trans ho (ih w1)

theorem within_convergeTier (build : Builder) (t : Tier) (c : VMCluster) (w : World) :
    Within t w (convergeTier build t c w).2 := by
  unfold convergeTier
  split
  · split
    · exact within_refl t w
    · next os _ =>
      have ha := within_createOrUpdateAll t os w
      split
      · next err w1 h => rw [h] at ha; exact ha
      · next w1 h =>
        rw [h] at ha
        split <;> exact ha
  · exact within_refl t w

theorem within_settle (t : Tier) (c : VMCluster) (status reason : String) (w : World) :
    Within t w (settle c status reason w).2 := by
  unfold settle
  simp only []
  split <;> exact within_statusUpdate t _ _ w

theorem within_retryLater (t : Tier) (c : VMCluster) (err : GoError) (w : World) :
    Within t w (retryLater c err w).2 :=
  within_statusUpdate t _ _ w

theorem within_stopAt (t : Tier) (c : VMCluster) (o : TierOutcome) (w : World) :
    Within t w (stopAt c o w).2 := by
  unfold stopAt
  split
  · exact within_retryLater t c _ w
  · exact within_settle t c _ _ w
  · exact within_settle t c _ _ w

/-- The modelled create-or-update call removes nothing, whatever the builder gives. -/
theorem grows_createOrUpdateVMCluster (build : Builder) (c : VMCluster) (w : World) :
    Grows w (CreateOrUpdateVMCluster build c w).2 := by
  unfold CreateOrUpdateVMCluster
  have h1 := (within_convergeTier build Tier.Storage c w).1
  split
  · next w1 e1 =>
    rw [e1] at h1
    have h2 := (within_convergeTier build Tier.Select c w1).1
    split
    · next w2 e2 =>
      rw [e2] at h2
      have h3 := (within_convergeTier build Tier.Insert c w2).1
      split
      · next w3 e3 =>
        rw [e3] at h3
        exact grows_trans (grows_trans (grows_trans h1 h2) h3) (within_settle Tier.Storage c _ _ w3).1
      · next o w3 _ e3 =>
        rw [e3] at h3
        exact grows_trans (grows_trans (grows_trans h1 h2) h3) (within_stopAt Tier.Storage c o w3).1
    · next o w2 _ e2 =>
      rw [e2] at h2
      exact grows_trans (grows_trans h1 h2) (within_stopAt Tier.Storage c o w2).1
  · next o w1 _ e1 =>
    rw [e1] at h1
    exact grows_trans h1 (within_stopAt Tier.Storage c o w1).1

/-- While the Storage tier is rolling out, the modelled call ends right after the
Storage step, recording Expanding. -/
theorem createOrUpdateVMCluster_of_rolling (build : Builder) (c : VMCluster) (w : World)
    (hroll : (convergeTier build Tier.Storage c w).1 = TierOutcome.rolling) :
    CreateOrUpdateVMCluster build c w =
      settle c ClusterStatusExpanding "" (convergeTier build Tier.Storage c w).2 := by
  unfold CreateOrUpdateVMCluster
  split
  · next w1 e1 => rw [e1] at hroll; cases hroll
  · next o w1 _ e1 =>
    rw [e1] at hroll ⊢
    simp only at hroll
    subst hroll
    rfl

/-- The store a pass leaves: the store as it was, or the store the call left. -/
theorem specPass_store (build : Builder) (request : Request) (w : World) :
    (specPass build request w).store = w ∨
    ∃ cluster, World.GetCluster request.toNamespacedName w = Except.ok cluster ∧
      (specPass build request w).store = (CreateOrUpdateVMCluster build cluster w).2 := by
  cases hget : World.GetCluster request.toNamespacedName w with
  | error e =>
    left
    simp only [specPass, ReconcileVmCluster.Reconcile, worldReconciler, hget]
    split <;> rfl
  | ok cluster =>
    right
    refine ⟨cluster, rfl, ?_⟩
    simp only [specPass, ReconcileVmCluster.Reconcile, worldReconciler, specPackages, hget]
    split
    · rfl
    · split <;> rfl

/-- The calls `Reconcile` makes itself: one `Get`, then at most one create-or-update call. -/
theorem reconcile_calls_shape {σ κ : Type} (r : ReconcileVmCluster σ) (pkgs : Packages σ κ)
    (request : Request) (store : σ) :
    (r.Reconcile pkgs request store).calls = [Call.clientGet request.toNamespacedName] ∨
      ∃ cluster, (r.Reconcile pkgs request store).calls =
        [Call.clientGet request.toNamespacedName,
          Call.factoryCreateOrUpdateVMCluster cluster] := by
  simp only [ReconcileVmCluster.Reconcile]
  split
  · left
    split <;> rfl
  · next cluster _ =>
    right
    refine ⟨cluster, ?_⟩
    split
    · rfl
    · split <;> rfl

/-- C4: in every pass in which the cluster is read, the Storage tier is still
rolling out after its create-or-update (ready replicas below the desired count, or
a generation mismatch) and the call reports Expanding, `Reconcile` returns the
10-second requeue right after the call: its calls are the `Get` and that call, the
store is the one the call left, the Select and the Insert objects in the store are
exactly those from before the pass (none created, none updated), and the builder's
output for the Select and Insert tier plays no part. -/
theorem reconcile_storage_gate (build : Builder) (request : Request) (w : World)
    (cluster : VMCluster)
    (hget : World.GetCluster request.toNamespacedName w = Except.ok cluster)
    (hexp : (CreateOrUpdateVMCluster build cluster w).1 = (ClusterStatusExpanding, none))
    (hroll : (convergeTier build Tier.Storage cluster w).1 = TierOutcome.rolling) :
    (specPass build request w).result = { Requeue := true, RequeueAfter := 10 * Second } ∧
    (specPass build request w).err = none ∧
    (specPass build request w).calls =
      [Call.clientGet request.toNamespacedName, Call.factoryCreateOrUpdateVMCluster cluster] ∧
    (specPass build request w).store = (CreateOrUpdateVMCluster build cluster w).2 ∧
    (specPass build request w).store.tierObjects Tier.Select = w.tierObjects Tier.Select ∧
    (specPass build request w).store.tierObjects Tier.Insert = w.tierObjects Tier.Insert ∧
    (∀ build' : Builder, build' cluster Tier.Storage = build cluster Tier.Storage →
      specPass build' request w = specPass build request w) := by
  have hstore : (specPass build request w).store = (CreateOrUpdateVMCluster build cluster w).2 := by
    simp [specPass, ReconcileVmCluster.Reconcile, worldReconciler, specPackages, hget, hexp]
  have hframe : ∀ t', t' ≠ Tier.Storage →
      (CreateOrUpdateVMCluster build cluster w).2.tierObjects t' = w.tierObjects t' := by
    intro t' ht
    rw [createOrUpdateVMCluster_of_rolling build cluster w hroll]
    exact (within_trans (within_convergeTier build Tier.Storage cluster w)
      (within_settle Tier.Storage cluster _ _ _)).2 t' ht
  refine ⟨?_, ?_, ?_, hstore, ?_, ?_, ?_⟩
  · simp [specPass, ReconcileVmCluster.Reconcile, worldReconciler, specPackages, hget, hexp,
      Second]
  · simp [specPass, ReconcileVmCluster.Reconcile, worldReconciler, specPackages, hget, hexp]
  · simp [specPass, ReconcileVmCluster.Reconcile, worldReconciler, specPackages, hget, hexp]
  · rw [hstore]
    exact hframe Tier.Select (by decide)
  · rw [hstore]
    exact hframe Tier.Insert (by decide)
  · intro build' hb
    have hc : convergeTier build' Tier.Storage cluster w =
        convergeTier build Tier.Storage cluster w := by
      simp only [convergeTier, hb]
    have hcall : CreateOrUpdateVMCluster build' cluster w =
        CreateOrUpdateVMCluster build cluster w := by
      rw [createOrUpdateVMCluster_of_rolling build cluster w hroll,
        createOrUpdateVMCluster_of_rolling build' cluster w (by rw [hc]; exact hroll), hc]
    simp only [specPass, ReconcileVmCluster.Reconcile, worldReconciler, specPackages, hget,
      hcall]

/-- Witness of `reconcile_storage_gate`: `gatedCluster` declares a Select tier and
its Storage StatefulSet has 2 of 3 replicas ready; the pass requeues and the store
holds no Select object before or after it. -/
theorem reconcile_storage_gate_witness :
    (specPass exampleBuild prodRequest expandingWorld).result =
      { Requeue := true, RequeueAfter := 10 * Second } ∧
    (specPass exampleBuild prodRequest expandingWorld).store.tierObjects Tier.Select =
      expandingWorld.tierObjects Tier.Select ∧
    expandingWorld.tierObjects Tier.Select = [] :=
  ⟨(reconcile_storage_gate exampleBuild prodRequest expandingWorld gatedCluster
      rfl rfl rfl).1,
   (reconcile_storage_gate exampleBuild prodRequest expandingWorld gatedCluster
      rfl rfl rfl).2.2.2.2.1,
   rfl⟩

/-- The gate opens: with the Storage StatefulSet at 3 of 3 ready, the same pass
creates the Select StatefulSet of `gatedCluster`. -/
theorem select_created_once_storage_ready :
    readyWorld.tierObjects Tier.Select = [] ∧
    (specPass exampleBuild prodRequest readyWorld).store.tierObjects Tier.Select =
      [{ Kind := "StatefulSet", Key := { Namespace := "monitoring", Name := "vmselect-prod" }
         Owner := gatedCluster.AsOwner, Replicas := 2 }] ∧
    (specPass exampleBuild prodRequest readyWorld).store.audit =
      [Call.clientGet { Namespace := "monitoring", Name := "vmstorage-prod" },
       Call.clientGet { Namespace := "monitoring", Name := "vmselect-prod" },
       Call.clientCreate { Namespace := "monitoring", Name := "vmselect-prod" },
       Call.clientStatusUpdate prodKey] := by
  decide

/-- A delete on the store is noted as a delete and removes the object. -/
theorem delete_is_audited_and_removes :
    (World.Delete Tier.Storage "StatefulSet"
      { Namespace := "monitoring", Name := "vmstorage-prod" } readyWorld).2.audit =
      [Call.clientDelete { Namespace := "monitoring", Name := "vmstorage-prod" }] ∧
    (World.Delete Tier.Storage "StatefulSet"
      { Namespace := "monitoring", Name := "vmstorage-prod" } readyWorld).2.workloads = [] := by
  decide

/-- C10: in every pass, on every store and for every builder, no delete is issued:
the calls `Reconcile` makes itself are one `Get` of the requested identity followed
by at most one create-or-update call; the requests the store serves during the pass
(those the call issues) include no `Delete` and no `DeleteAllOf`; every cluster
resource keeps its key and every workload object held before the pass is held
after it. -/
theorem reconcile_pass_never_deletes (build : Builder) (request : Request) (w : World) :
    ((specPass build request w).calls = [Call.clientGet request.toNamespacedName] ∨
      ∃ cluster, (specPass build request w).calls =
        [Call.clientGet request.toNamespacedName,
          Call.factoryCreateOrUpdateVMCluster cluster]) ∧
    (∀ op ∈ (specPass build request w).calls, Call.isDelete op = false) ∧
    (∃ ops, (specPass build request w).store.audit = w.audit ++ ops ∧
      ∀ op ∈ ops, Call.isDelete op = false) ∧
    (specPass build request w).store.clusters.map Prod.fst = w.clusters.map Prod.fst ∧
    (∃ extra, (specPass build request w).store.workloads.map workloadIdentity =
      w.workloads.map workloadIdentity ++ extra) := by
  have hshape := reconcile_calls_shape worldReconciler (specPackages build) request w
  have hgrows : Grows w (specPass build request w).store := by
    rcases specPass_store build request w with h | ⟨cluster, _, h⟩
    · rw [h]
      exact grows_refl w
    · rw [h]
      exact grows_createOrUpdateVMCluster build cluster w
  refine ⟨hshape, ?_, hgrows.1, hgrows.2.1, hgrows.2.2⟩
  intro op hop
  rcases hshape with h | ⟨c, h⟩
  · rw [specPass, h] at hop
    simp only [List.mem_singleton] at hop
    rw [hop]
    rfl
  · rw [specPass, h] at hop
    simp only [List.mem_cons, List.mem_singleton, List.not_mem_nil, or_false] at hop
    rcases hop with h1 | h1 <;> rw [h1] <;> rfl

end Operator
